import Mathlib

/-!
Shallow embedding of the credential orchestrator of Homyakadze14/PsyhoApp
(`Backend/AuthMicroservice/internal/usecase/auth.go`) together with the store
adapters it is wired to (`internal/infra/redis/redis.go`,
`internal/infra/postgres/user.go`, the postgres token / telegram-connection
repositories).  Relational rows and cache entries are modelled as in-memory
lists; transient store faults are injected explicitly through an optional
fault message per store call, mirroring the wrapped errors the adapters
return on I/O failure.
-/

namespace PsyhoApp

/-- Error values of the use case layer (`internal/usecase/auth.go` lines 16-27),
plus `storeFault` standing for any wrapped, unclassified store error
(`fmt.Errorf("%s: %w", op, err)` in the adapters). -/
inductive GoErr where
  | accountAlreadyExists
  | accountNotFound
  | badCredentials
  | tokenNotFound
  | linkNotFound
  | notActivated
  | invalidRole
  | verificationFailed
  | tgConnNotFound
  | cacheNotFound
  | storeFault (msg : String)
deriving DecidableEq, Repr

/-- Message of each error value, as `err.Error()` would produce it
(the strings from `auth.go` lines 16-27; a `storeFault` carries its own). -/
def goErrMessage : GoErr → String
  | GoErr.accountAlreadyExists => "account with this credentials already exists"
  | GoErr.accountNotFound => "account with this credentials not found"
  | GoErr.badCredentials => "bad credentials"
  | GoErr.tokenNotFound => "token not found"
  | GoErr.linkNotFound => "link not found"
  | GoErr.notActivated => "not activated account"
  | GoErr.invalidRole => "invalid role"
  | GoErr.verificationFailed => "verification failed"
  | GoErr.tgConnNotFound => "telegram connectino not found"
  | GoErr.cacheNotFound => "cache not found"
  | GoErr.storeFault msg => msg

/-- `entity.User` (timestamps dropped; the orchestrator never reads them). -/
structure User where
  id : Int
  username : String
  password : String
  role : String
deriving DecidableEq, Repr

/-- `entity.AccessToken`. -/
structure AccessToken where
  id : Int
  userID : Int
  token : String
deriving DecidableEq, Repr

/-- `entity.SerivceToken` (spelling as in the source). -/
structure SerivceToken where
  id : Int
  serviceName : String
  token : String
deriving DecidableEq, Repr

/-- `entity.TgConnection`: the identity link between a primary account id and
a telegram (secondary-identity) user id. -/
structure TgConnection where
  id : Int
  userID : Int
  tgUserID : Int
deriving DecidableEq, Repr

/-- `entity.LoginResponse`. -/
structure LoginResponse where
  id : Int
  token : String
deriving DecidableEq, Repr

/-- In-memory model of the two stores the orchestrator talks to: the
relational tables (`account`, `token`, `service_token`, `telegram_connection`)
and the redis key space for verification codes (`code -> telegram user id`).
`nextID` is the next row id handed out by an insert. -/
structure StoreState where
  users : List User
  accessTokens : List AccessToken
  serviceTokens : List SerivceToken
  tgConns : List TgConnection
  cache : List (String × Int)
  nextID : Int
deriving DecidableEq, Repr

/-- Row lookup `SELECT ... FROM "account" WHERE username = $1`. -/
def userLookup (s : StoreState) (username : String) : Option User :=
  s.users.find? (fun u => u.username == username)

/-- Row lookup `SELECT ... FROM token WHERE access_token = $1`. -/
def accessTokenLookup (s : StoreState) (token : String) : Option AccessToken :=
  s.accessTokens.find? (fun t => t.token == token)

/-- Row lookup `SELECT ... FROM service_token WHERE service_name = $1`. -/
def serviceTokenByNameLookup (s : StoreState) (serviceName : String) : Option SerivceToken :=
  s.serviceTokens.find? (fun t => t.serviceName == serviceName)

/-- Row lookup `SELECT ... FROM service_token WHERE token = $1`. -/
def serviceTokenByTokenLookup (s : StoreState) (token : String) : Option SerivceToken :=
  s.serviceTokens.find? (fun t => t.token == token)

/-- Row lookup `SELECT ... FROM telegram_connection WHERE user_id = $1`. -/
def tgConnLookup (s : StoreState) (userID : Int) : Option TgConnection :=
  s.tgConns.find? (fun c => c.userID == userID)

/-- Key lookup in the verification-code cache; an expired key is simply
absent (redis TTL semantics). -/
def cacheLookup (s : StoreState) (key : String) : Option Int :=
  (s.cache.find? (fun kv => kv.1 == key)).map (fun kv => kv.2)

/-- `UserRepository.GetByUsername`: the adapter wraps `sql.ErrNoRows`
generically, so absence surfaces as an unclassified store error. -/
def userGetByUsername (s : StoreState) (username : String) : Except GoErr User :=
  match userLookup s username with
  | some u => Except.ok u
  | none => Except.error (GoErr.storeFault "sql: no rows in result set")

/-- `UserRepository.Create`: inserts the account with the default role
"user" and returns the created row. -/
def userCreate (s : StoreState) (username password : String) : User × StoreState :=
  let u : User := ⟨s.nextID, username, password, "user"⟩
  (u, { s with users := u :: s.users, nextID := s.nextID + 1 })

/-- `TokenRepository.GetAccessTokenByToken`: absence surfaces as a wrapped,
unclassified store error (`sql.ErrNoRows` is not mapped in this adapter). -/
def getAccessTokenByToken (s : StoreState) (token : String) : Except GoErr AccessToken :=
  match accessTokenLookup s token with
  | some t => Except.ok t
  | none => Except.error (GoErr.storeFault "sql: no rows in result set")

/-- `TokenRepository.CreateAccessToken`: inserts and returns the new row. -/
def createAccessToken (s : StoreState) (userID : Int) (token : String) :
    AccessToken × StoreState :=
  let t : AccessToken := ⟨s.nextID, userID, token⟩
  (t, { s with accessTokens := t :: s.accessTokens, nextID := s.nextID + 1 })

/-- `TokenRepository.DeleteAccessToken`: `DELETE FROM token WHERE id = $1`;
zero affected rows is reported as an error. -/
def deleteAccessToken (s : StoreState) (id : Int) : Except GoErr StoreState :=
  if s.accessTokens.any (fun t => t.id == id) then
    Except.ok { s with accessTokens := s.accessTokens.filter (fun t => t.id != id) }
  else
    Except.error (GoErr.storeFault "access token not found")

/-- `TokenRepository.GetServiceTokenByServiceName`: absence surfaces as a
wrapped, unclassified store error. -/
def getServiceTokenByServiceName (s : StoreState) (serviceName : String) :
    Except GoErr SerivceToken :=
  match serviceTokenByNameLookup s serviceName with
  | some t => Except.ok t
  | none => Except.error (GoErr.storeFault "sql: no rows in result set")

/-- `TokenRepository.GetServiceTokenByToken`: absence surfaces as a wrapped,
unclassified store error. -/
def getServiceTokenByToken (s : StoreState) (token : String) : Except GoErr SerivceToken :=
  match serviceTokenByTokenLookup s token with
  | some t => Except.ok t
  | none => Except.error (GoErr.storeFault "sql: no rows in result set")

/-- `TokenRepository.CreateServiceToken`: inserts and returns the new row. -/
def createServiceToken (s : StoreState) (serviceName token : String) :
    SerivceToken × StoreState :=
  let t : SerivceToken := ⟨s.nextID, serviceName, token⟩
  (t, { s with serviceTokens := t :: s.serviceTokens, nextID := s.nextID + 1 })

/-- `TgConnectionRepository.GetByUserID`: this adapter maps `sql.ErrNoRows`
to the sentinel `ErrTgConnNotFound`. -/
def tgConnGetByUserID (s : StoreState) (userID : Int) : Except GoErr TgConnection :=
  match tgConnLookup s userID with
  | some c => Except.ok c
  | none => Except.error GoErr.tgConnNotFound

/-- `TgConnectionRepository.Create`: inserts `(userID, tgUserID)` and returns
the created row. -/
def tgConnCreate (s : StoreState) (userID tgUserID : Int) : TgConnection × StoreState :=
  let c : TgConnection := ⟨s.nextID, userID, tgUserID⟩
  (c, { s with tgConns := c :: s.tgConns, nextID := s.nextID + 1 })

/-- `RedisRepository.Get`: a missing (or expired) key is the sentinel
`ErrCacheNotFound`. -/
def cacheGet (s : StoreState) (key : String) : Except GoErr Int :=
  match cacheLookup s key with
  | some v => Except.ok v
  | none => Except.error GoErr.cacheNotFound

/-- `RedisRepository.Set`: writes the key (redis SET overwrites; the new
entry shadows any older one under lookup). -/
def cacheSet (s : StoreState) (key : String) (value : Int) : StoreState :=
  { s with cache := (key, value) :: s.cache }

/-- `RedisRepository.Del`: removes the key, returning the number of entries
removed. -/
def cacheDel (s : StoreState) (key : String) : Int × StoreState :=
  ((s.cache.filter (fun kv => kv.1 == key)).length,
    { s with cache := s.cache.filter (fun kv => kv.1 != key) })

/-- Modelled from the spec: the password-hash capability
(`golang.org/x/crypto/bcrypt`, outside this repository; §1 treats it as
`hash(plaintext) -> digest`). Modelled as an injective tagging. -/
def bcryptHash (plaintext : String) : String :=
  "bcrypt$" ++ plaintext

/-- Modelled from the spec: the hash capability's
`verify(plaintext, digest) -> bool` (`bcrypt.CompareHashAndPassword`). -/
def bcryptVerify (plaintext digest : String) : Bool :=
  digest == bcryptHash plaintext

/-- A transient-fault schedule for one `Verify` call: `some msg` makes the
corresponding store call fail with the wrapped error `storeFault msg`
instead of executing; `none` lets the in-memory store answer. -/
structure VerifyFaults where
  getCache : Option String
  getConn : Option String
  createConn : Option String
  delCache : Option String
deriving DecidableEq, Repr

/-- The schedule with no transient faults. -/
def noFaults : VerifyFaults := ⟨none, none, none, none⟩

/-- `s.authCodes.Get` as called by `Verify`, under a possible injected fault. -/
def callGetCache (s : StoreState) (fault : Option String) (key : String) : Except GoErr Int :=
  match fault with
  | some msg => Except.error (GoErr.storeFault msg)
  | none => cacheGet s key

/-- `s.tgConn.GetByUserID` as called by `Verify`, under a possible injected fault. -/
def callGetConn (s : StoreState) (fault : Option String) (userID : Int) :
    Except GoErr TgConnection :=
  match fault with
  | some msg => Except.error (GoErr.storeFault msg)
  | none => tgConnGetByUserID s userID

/-- `s.tgConn.Create` as called by `Verify`, under a possible injected fault. -/
def callCreateConn (s : StoreState) (fault : Option String) (userID tgUserID : Int) :
    Except GoErr (TgConnection × StoreState) :=
  match fault with
  | some msg => Except.error (GoErr.storeFault msg)
  | none => Except.ok (tgConnCreate s userID tgUserID)

/-- `s.authCodes.Del` as called by `Verify`, under a possible injected fault. -/
def callDelCache (s : StoreState) (fault : Option String) (key : String) :
    Except GoErr (Int × StoreState) :=
  match fault with
  | some msg => Except.error (GoErr.storeFault msg)
  | none => Except.ok (cacheDel s key)

/-- Result of `AuthService.Verify`: the `(bool, error)` pair returned to the
caller, together with the store state after the call. -/
structure VerifyOut where
  verified : Bool
  err : Option GoErr
  state : StoreState
deriving DecidableEq, Repr

/-- The switch on the telegram-connection lookup in `AuthService.Verify`
(auth.go lines 263-276): `ErrTgConnNotFound` leads to creation, whose
failure becomes `ErrVerificationFailed`; every other lookup error becomes
`ErrVerificationFailed` (`default` branch). -/
def verifyResolveConn (s : StoreState) (f : VerifyFaults) (userID tgUserID : Int) :
    Except GoErr (TgConnection × StoreState) :=
  match callGetConn s f.getConn userID with
  | Except.ok conn => Except.ok (conn, s)
  | Except.error GoErr.tgConnNotFound =>
    match callCreateConn s f.createConn userID tgUserID with
    | Except.ok cs => Except.ok cs
    | Except.error _ => Except.error GoErr.verificationFailed
  | Except.error _ => Except.error GoErr.verificationFailed

/-- `AuthService.Verify` (auth.go lines 237-291): look the code up in the
cache (`ErrCacheNotFound` becomes `ErrVerificationFailed`, any other error is
passed through); resolve the telegram connection for `userID`
(`verifyResolveConn`); compare the cached value against the connection's
telegram user id (mismatch is `ErrVerificationFailed`); then delete the code
(deletion errors are passed through) and return verified. -/
def Verify (s : StoreState) (f : VerifyFaults) (userID : Int) (code : String) : VerifyOut :=
  match callGetCache s f.getCache code with
  | Except.error GoErr.cacheNotFound => ⟨false, some GoErr.verificationFailed, s⟩
  | Except.error e => ⟨false, some e, s⟩
  | Except.ok tgUserID =>
    match verifyResolveConn s f userID tgUserID with
    | Except.error e => ⟨false, some e, s⟩
    | Except.ok (tgConn, s1) =>
      if tgUserID != tgConn.tgUserID then
        ⟨false, some GoErr.verificationFailed, s1⟩
      else
        match callDelCache s1 f.delCache code with
        | Except.error e => ⟨false, some e, s1⟩
        | Except.ok (_, s2) => ⟨true, none, s2⟩

/-- Body of the goroutine dispatched by `AuthService.GenerateAuthCode`
(auth.go lines 227-230): run the cache `Set`, then unconditionally log
`err.Error()`.  The result pairs the store state after the `Set` with
`some loggedMessage` when the task completes, and with `none` when it
panics — which is exactly the nil-interface `err.Error()` call performed
when `Set` returned a nil error. -/
def generateAuthCodeTask (s : StoreState) (setFault : Option String) (code : String)
    (userID : Int) : StoreState × Option String :=
  match setFault with
  | some msg => (s, some (goErrMessage (GoErr.storeFault msg)))
  | none => (cacheSet s code userID, none)

/-- `AuthService.GenerateAuthCode` (auth.go lines 209-234): the random code
is modelled as the supplied `code` string (its generation can only fail in
the random source, out of scope).  Returns the value handed back to the
caller paired with the dispatched background task's outcome (second
component `none` = the task panics). -/
def GenerateAuthCode (s : StoreState) (setFault : Option String) (code : String)
    (userID : Int) : Except GoErr String × (StoreState × Option String) :=
  (Except.ok code, generateAuthCodeTask s setFault code userID)

/-- `AuthService.Login` (auth.go lines 98-141): user lookup failure becomes
`ErrAccountNotFound`; a digest mismatch becomes `ErrBadCredentials`;
otherwise the fresh token (modelled as the supplied `fresh` string) is
persisted and returned with the account id. -/
def Login (s : StoreState) (fresh : String) (username password : String) :
    Except GoErr LoginResponse × StoreState :=
  match userGetByUsername s username with
  | Except.error _ => (Except.error GoErr.accountNotFound, s)
  | Except.ok user =>
    if bcryptVerify password user.password then
      let (row, s1) := createAccessToken s user.id fresh
      (Except.ok ⟨user.id, row.token⟩, s1)
    else
      (Except.error GoErr.badCredentials, s)

/-- `AuthService.Register` (auth.go lines 144-177): a successful username
lookup (`err == nil`) is `ErrAccountAlreadyExists`; otherwise the password
is hashed and the account created. -/
def Register (s : StoreState) (username password : String) : Option GoErr × StoreState :=
  match userGetByUsername s username with
  | Except.ok _ => (some GoErr.accountAlreadyExists, s)
  | Except.error _ =>
    let hashed := bcryptHash password
    let (_, s1) := userCreate s username hashed
    (none, s1)

/-- `AuthService.Logout` (auth.go lines 180-206): token lookup failure
becomes `ErrTokenNotFound`; otherwise the row found is deleted by its id. -/
def Logout (s : StoreState) (accessToken : String) : Option GoErr × StoreState :=
  match getAccessTokenByToken s accessToken with
  | Except.error _ => (some GoErr.tokenNotFound, s)
  | Except.ok tok =>
    match deleteAccessToken s tok.id with
    | Except.error e => (some e, s)
    | Except.ok s1 => (none, s1)

/-- `AuthService.GenerateServiceToken` (auth.go lines 294-328): if the
lookup by service name succeeds, the existing token is returned and nothing
is written; otherwise a fresh token (modelled as the supplied `fresh`
string) is persisted and returned. -/
def GenerateServiceToken (s : StoreState) (fresh : String) (serviceName : String) :
    Except GoErr String × StoreState :=
  match getServiceTokenByServiceName s serviceName with
  | Except.ok existingToken => (Except.ok existingToken.token, s)
  | Except.error _ =>
    let (row, s1) := createServiceToken s serviceName fresh
    (Except.ok row.token, s1)

/-- `AuthService.CheckAccessToken` (auth.go lines 331-350): every lookup
error becomes `ErrTokenNotFound`; success returns the owning user id. -/
def CheckAccessToken (s : StoreState) (accessToken : String) : Except GoErr Int :=
  match getAccessTokenByToken s accessToken with
  | Except.error _ => Except.error GoErr.tokenNotFound
  | Except.ok tok => Except.ok tok.userID

/-- `AuthService.CheckServiceToken` (auth.go lines 353-372), written over
the outcome of `GetServiceTokenByToken`: every error collapses to
`(false, nil)`, success is `(true, nil)`. -/
def CheckServiceToken (lookupRes : Except GoErr SerivceToken) : Bool × Option GoErr :=
  match lookupRes with
  | Except.error _ => (false, none)
  | Except.ok _ => (true, none)

/-- `AuthService.CheckServiceToken` run against the in-memory store with no
transient fault. -/
def CheckServiceTokenIn (s : StoreState) (serviceToken : String) : Bool × Option GoErr :=
  CheckServiceToken (getServiceTokenByToken s serviceToken)

/-- Well-formedness of the access-token table: every row id is below the
next insert id (true of every state grown from an empty store). -/
def StoreState.wfTokens (s : StoreState) : Bool :=
  s.accessTokens.all (fun t => t.id < s.nextID)

/-- Concrete store used by witnesses and counterexamples: one account, one
service token, one identity link `(42 ↦ 999)` matching the one cached
verification code `"483920" ↦ 999` (the spec's §8 example scenario). -/
def exStore : StoreState :=
  { users := [⟨1, "alice", bcryptHash "pw", "user"⟩]
    accessTokens := []
    serviceTokens := [⟨2, "svcA", "tokA"⟩]
    tgConns := [⟨3, 42, 999⟩]
    cache := [("483920", 999)]
    nextID := 4 }

/-- Helper: after `cacheDel`, the deleted key is no longer found. -/
theorem cacheLookup_cacheDel (s : StoreState) (key : String) :
    cacheLookup (cacheDel s key).2 key = none := by
  have hf : (s.cache.filter (fun kv => kv.1 != key)).find? (fun kv => kv.1 == key) = none := by
    rw [List.find?_eq_none]
    intro x hx
    have hx2 := (List.mem_filter.mp hx).2
    simp only [bne_iff_ne, ne_eq] at hx2
    simp [hx2]
  unfold cacheLookup cacheDel
  rw [hf]
  rfl

/-- Helper: a successful fault-wrapped connection creation is the in-memory
creation. -/
theorem callCreateConn_ok_inv (s : StoreState) (c : Option String) (userID tgUserID : Int)
    (out : TgConnection × StoreState) (h : callCreateConn s c userID tgUserID = Except.ok out) :
    out = tgConnCreate s userID tgUserID := by
  unfold callCreateConn at h
  cases c with
  | some msg => simp at h
  | none =>
    injection h with h1
    exact h1.symm

/-- Helper: a successful fault-wrapped cache deletion is the in-memory
deletion. -/
theorem callDelCache_ok_inv (s : StoreState) (d : Option String) (key : String)
    (cnt : Int) (s2 : StoreState) (h : callDelCache s d key = Except.ok (cnt, s2)) :
    s2 = (cacheDel s key).2 := by
  unfold callDelCache at h
  cases d with
  | some msg => simp at h
  | none =>
    injection h with h1
    rw [h1]

/-- Helper: whatever way `verifyResolveConn` succeeds, the cache is
untouched. -/
theorem verifyResolveConn_ok_cache (s : StoreState) (f : VerifyFaults) (userID tgUserID : Int)
    (conn : TgConnection) (s1 : StoreState)
    (h : verifyResolveConn s f userID tgUserID = Except.ok (conn, s1)) :
    s1.cache = s.cache := by
  unfold verifyResolveConn at h
  split at h
  · injection h with h1
    exact (congrArg (fun p => (Prod.snd p).cache) h1).symm
  · split at h
    · next cs heq =>
      have hcs := callCreateConn_ok_inv _ _ _ _ _ heq
      injection h with h1
      exact congrArg (fun p => (Prod.snd p).cache) (h1.symm.trans hcs)
    · simp at h
  · simp at h

/-- Helper: when the code is absent from the cache and the cache read does
not fault, `Verify` fails with `ErrVerificationFailed` and leaves the store
unchanged. -/
theorem verify_absent (s : StoreState) (g : VerifyFaults) (userID : Int) (code : String)
    (hg : g.getCache = none) (h : cacheLookup s code = none) :
    Verify s g userID code = ⟨false, some GoErr.verificationFailed, s⟩ := by
  unfold Verify callGetCache cacheGet
  rw [hg, h]

/-- C2: a verification code is single-use: whenever a `Verify` call returns
verified=true, the code is gone from the Ephemeral Code Store in the
post-state, so a second `Verify` with the same code (and a non-faulting
cache read) returns verified=false with `ErrVerificationFailed`. -/
theorem verify_single_use (s : StoreState) (f : VerifyFaults) (userID : Int) (code : String)
    (h : (Verify s f userID code).verified = true) :
    cacheLookup (Verify s f userID code).state code = none ∧
      ∀ g : VerifyFaults, g.getCache = none →
        (Verify (Verify s f userID code).state g userID code).verified = false ∧
          (Verify (Verify s f userID code).state g userID code).err =
            some GoErr.verificationFailed := by
  have hcache : cacheLookup (Verify s f userID code).state code = none := by
    unfold Verify at h ⊢
    split at h
    · exact Bool.noConfusion h
    · exact Bool.noConfusion h
    · next tgUserID hget =>
      split at h
      · exact Bool.noConfusion h
      · next tgConn s1 hres =>
        split at h
        · exact Bool.noConfusion h
        · next hne =>
          split at h
          · exact Bool.noConfusion h
          · next cnt s2 hdel =>
            rw [if_neg hne]
            have hs2 := callDelCache_ok_inv _ _ _ _ _ hdel
            rw [hs2]
            exact cacheLookup_cacheDel s1 code
  refine ⟨hcache, fun g hg => ?_⟩
  rw [verify_absent _ g userID code hg hcache]
  exact ⟨rfl, rfl⟩

/-- Witness for `verify_single_use` at the spec's §8 scenario: account 42,
cached code "483920" bound to secondary identity 999, matching link
present. -/
theorem verify_single_use_w :
    cacheLookup (Verify exStore noFaults 42 "483920").state "483920" = none ∧
      (Verify (Verify exStore noFaults 42 "483920").state noFaults 42 "483920").verified =
          false ∧
        (Verify (Verify exStore noFaults 42 "483920").state noFaults 42 "483920").err =
          some GoErr.verificationFailed :=
  ⟨(verify_single_use exStore noFaults 42 "483920" (by decide)).1,
    (verify_single_use exStore noFaults 42 "483920" (by decide)).2 noFaults rfl⟩

/-- Helper: evaluation of `Verify` once the cache read succeeds. -/
theorem verify_eval_found (s : StoreState) (f : VerifyFaults) (userID : Int) (code : String)
    (v : Int) (hc : f.getCache = none) (hv : cacheLookup s code = some v) :
    Verify s f userID code =
      match verifyResolveConn s f userID v with
      | Except.error e => ⟨false, some e, s⟩
      | Except.ok (tgConn, s1) =>
        if v != tgConn.tgUserID then
          ⟨false, some GoErr.verificationFailed, s1⟩
        else
          match callDelCache s1 f.delCache code with
          | Except.error e => ⟨false, some e, s1⟩
          | Except.ok (_, s2) => ⟨true, none, s2⟩ := by
  unfold Verify callGetCache cacheGet
  rw [hc, hv]

/-- Helper: a transient fault on the connection lookup makes
`verifyResolveConn` fail with `ErrVerificationFailed` (default branch of the
switch). -/
theorem verifyResolveConn_fault (s : StoreState) (f : VerifyFaults) (userID tgUserID : Int)
    (msg : String) (hg : f.getConn = some msg) :
    verifyResolveConn s f userID tgUserID = Except.error GoErr.verificationFailed := by
  unfold verifyResolveConn callGetConn
  rw [hg]

/-- Helper: with a connection row present and no fault, `verifyResolveConn`
returns it with the store unchanged. -/
theorem verifyResolveConn_found (s : StoreState) (f : VerifyFaults) (userID tgUserID : Int)
    (conn : TgConnection) (hg : f.getConn = none) (hconn : tgConnLookup s userID = some conn) :
    verifyResolveConn s f userID tgUserID = Except.ok (conn, s) := by
  unfold verifyResolveConn callGetConn tgConnGetByUserID
  rw [hg, hconn]

/-- Helper: with no connection row and no faults, `verifyResolveConn`
creates the link binding `userID` to the cached value. -/
theorem verifyResolveConn_create (s : StoreState) (f : VerifyFaults) (userID tgUserID : Int)
    (hg : f.getConn = none) (hconn : tgConnLookup s userID = none)
    (hcr : f.createConn = none) :
    verifyResolveConn s f userID tgUserID =
      Except.ok (⟨s.nextID, userID, tgUserID⟩,
        { s with tgConns := ⟨s.nextID, userID, tgUserID⟩ :: s.tgConns,
                 nextID := s.nextID + 1 }) := by
  unfold verifyResolveConn callGetConn tgConnGetByUserID callCreateConn
  rw [hg, hconn, hcr]
  rfl

/-- Helper: with no connection row and a faulting creation,
`verifyResolveConn` fails with `ErrVerificationFailed`. -/
theorem verifyResolveConn_create_fault (s : StoreState) (f : VerifyFaults)
    (userID tgUserID : Int) (msg : String) (hg : f.getConn = none)
    (hconn : tgConnLookup s userID = none) (hcr : f.createConn = some msg) :
    verifyResolveConn s f userID tgUserID = Except.error GoErr.verificationFailed := by
  unfold verifyResolveConn callGetConn tgConnGetByUserID callCreateConn
  rw [hg, hconn, hcr]

/-- C3 counterexample: a transient fault on the IdentityLink lookup makes
`Verify` fail with `ErrVerificationFailed` even though the code is present
in the cache, a link exists for the account, and that link's secondary id
equals the cached value — none of the claim's three cases. -/
theorem verify_vf_on_transient_conn_fault :
    (Verify exStore ⟨none, some "connection refused", none, none⟩ 42 "483920").err =
        some GoErr.verificationFailed ∧
      cacheLookup exStore "483920" = some 999 ∧
      tgConnLookup exStore 42 = some ⟨3, 42, 999⟩ := by
  decide

/-- C3 (amended): assuming the cache read itself does not fault, `Verify`
fails with `ErrVerificationFailed` — and never with that kind otherwise —
exactly when: the code is absent/expired; or the code is present and the
IdentityLink lookup faults; or no IdentityLink exists and creating one
fails; or an IdentityLink exists whose secondary id differs from the cached
value. -/
theorem verify_verificationFailed_iff (s : StoreState) (f : VerifyFaults) (userID : Int)
    (code : String) (hc : f.getCache = none) :
    (Verify s f userID code).err = some GoErr.verificationFailed ↔
      cacheLookup s code = none ∨
        (cacheLookup s code ≠ none ∧ f.getConn ≠ none) ∨
        (cacheLookup s code ≠ none ∧ f.getConn = none ∧ tgConnLookup s userID = none ∧
          f.createConn ≠ none) ∨
        (∃ v conn, cacheLookup s code = some v ∧ f.getConn = none ∧
          tgConnLookup s userID = some conn ∧ v ≠ conn.tgUserID) := by
  cases hv : cacheLookup s code with
  | none =>
    rw [verify_absent s f userID code hc hv]
    exact ⟨fun _ => Or.inl rfl, fun _ => rfl⟩
  | some v =>
    rw [verify_eval_found s f userID code v hc hv]
    cases hg : f.getConn with
    | some msg =>
      rw [verifyResolveConn_fault s f userID v msg hg]
      exact ⟨fun _ => Or.inr (Or.inl ⟨by simp [hv], by simp⟩), fun _ => rfl⟩
    | none =>
      cases hconn : tgConnLookup s userID with
      | none =>
        cases hcr : f.createConn with
        | some msg =>
          rw [verifyResolveConn_create_fault s f userID v msg hg hconn hcr]
          exact ⟨fun _ => Or.inr (Or.inr (Or.inl ⟨by simp [hv], rfl, rfl, by simp [hcr]⟩)),
            fun _ => rfl⟩
        | none =>
          rw [verifyResolveConn_create s f userID v hg hconn hcr]
          cases hd : f.delCache with
          | some msg => simp [callDelCache, hd, hv, hg, hconn, hcr]
          | none => simp [callDelCache, hd, hv, hg, hconn, hcr]
      | some conn =>
        rw [verifyResolveConn_found s f userID v conn hg hconn]
        by_cases hvv : v = conn.tgUserID
        · cases hd : f.delCache with
          | some msg => simp [callDelCache, hd, hv, hg, hconn, hvv]
          | none => simp [callDelCache, hd, hv, hg, hconn, hvv]
        · simp [bne_iff_ne, hvv, hv, hg, hconn]

/-- Witness for `verify_verificationFailed_iff`: an absent code fails with
`ErrVerificationFailed`. -/
theorem verify_verificationFailed_iff_w :
    (Verify exStore noFaults 42 "nope").err = some GoErr.verificationFailed :=
  (verify_verificationFailed_iff exStore noFaults 42 "nope" rfl).mpr (Or.inl (by decide))

/-- C4: once the code lookup has succeeded and the link check passes (the
existing link matches the cached value, or no link exists and creation
succeeds), a failing cache deletion surfaces as the wrapped store error —
distinct from `ErrVerificationFailed` — not as a verification failure. -/
theorem verify_del_failure_retryable (s : StoreState) (userID : Int) (code : String)
    (msg : String) (v : Int)
    (hv : cacheLookup s code = some v)
    (hlink : tgConnLookup s userID = none ∨
      ∃ conn, tgConnLookup s userID = some conn ∧ conn.tgUserID = v) :
    (Verify s ⟨none, none, none, some msg⟩ userID code).err =
        some (GoErr.storeFault msg) ∧
      GoErr.storeFault msg ≠ GoErr.verificationFailed := by
  refine ⟨?_, by simp⟩
  rw [verify_eval_found s ⟨none, none, none, some msg⟩ userID code v rfl hv]
  rcases hlink with hnone | ⟨conn, hconn, hcv⟩
  · rw [verifyResolveConn_create s ⟨none, none, none, some msg⟩ userID v rfl hnone rfl]
    simp [callDelCache]
  · rw [verifyResolveConn_found s ⟨none, none, none, some msg⟩ userID v conn rfl hconn]
    simp [callDelCache, hcv]

/-- Witness for `verify_del_failure_retryable` at the §8 scenario with a
faulting deletion. -/
theorem verify_del_failure_retryable_w :
    (Verify exStore ⟨none, none, none, some "io timeout"⟩ 42 "483920").err =
        some (GoErr.storeFault "io timeout") ∧
      GoErr.storeFault "io timeout" ≠ GoErr.verificationFailed :=
  verify_del_failure_retryable exStore 42 "483920" "io timeout" 999 (by decide)
    (Or.inr ⟨⟨3, 42, 999⟩, by decide, by decide⟩)

/-- C9: when no IdentityLink exists for the account and creation does not
fault, the created link stores exactly the cached secondary id, so the
mismatch branch is unreachable (no `ErrVerificationFailed`, whatever the
deletion outcome) and the fault-free run verifies, records the link, and
deletes the code. -/
theorem verify_creation_path_no_mismatch (s : StoreState) (userID : Int) (code : String)
    (v : Int) (d : Option String)
    (hv : cacheLookup s code = some v)
    (hconn : tgConnLookup s userID = none) :
    (Verify s ⟨none, none, none, d⟩ userID code).err ≠ some GoErr.verificationFailed ∧
      (Verify s noFaults userID code).verified = true ∧
      tgConnLookup (Verify s noFaults userID code).state userID =
        some ⟨s.nextID, userID, v⟩ ∧
      cacheLookup (Verify s noFaults userID code).state code = none := by
  refine ⟨?_, ?_, ?_, ?_⟩
  · rw [verify_eval_found s ⟨none, none, none, d⟩ userID code v rfl hv,
      verifyResolveConn_create s ⟨none, none, none, d⟩ userID v rfl hconn rfl]
    cases d with
    | some msg => simp [callDelCache]
    | none => simp [callDelCache]
  · rw [verify_eval_found s noFaults userID code v rfl hv,
      verifyResolveConn_create s noFaults userID v rfl hconn rfl]
    simp [callDelCache, noFaults]
  · rw [verify_eval_found s noFaults userID code v rfl hv,
      verifyResolveConn_create s noFaults userID v rfl hconn rfl]
    simp [callDelCache, noFaults, cacheDel, tgConnLookup, List.find?_cons]
  · rw [verify_eval_found s noFaults userID code v rfl hv,
      verifyResolveConn_create s noFaults userID v rfl hconn rfl]
    simp only [callDelCache, noFaults]
    rw [if_neg (by simp)]
    exact cacheLookup_cacheDel
      { s with tgConns := ⟨s.nextID, userID, v⟩ :: s.tgConns, nextID := s.nextID + 1 } code

/-- Witness for `verify_creation_path_no_mismatch`: account 7 has no link in
`exStore`; verifying the cached code creates link `(7 ↦ 999)` and
verifies. -/
theorem verify_creation_path_no_mismatch_w :
    (Verify exStore ⟨none, none, none, some "io timeout"⟩ 7 "483920").err ≠
        some GoErr.verificationFailed ∧
      (Verify exStore noFaults 7 "483920").verified = true ∧
      tgConnLookup (Verify exStore noFaults 7 "483920").state 7 = some ⟨4, 7, 999⟩ ∧
      cacheLookup (Verify exStore noFaults 7 "483920").state "483920" = none :=
  verify_creation_path_no_mismatch exStore 7 "483920" 999 (some "io timeout") (by decide)
    (by decide)

/-- C10: `CheckServiceToken` never returns a non-nil error: for every outcome
of the service-token lookup — transient store faults included, not only the
not-found outcome — the returned error is nil, and every lookup failure
collapses into the boolean `false`. -/
theorem checkServiceToken_never_errors (r : Except GoErr SerivceToken) :
    (CheckServiceToken r).2 = none ∧
      ∀ e : GoErr, r = Except.error e → (CheckServiceToken r).1 = false := by
  refine ⟨?_, ?_⟩
  · cases r <;> rfl
  · intro e he
    subst he
    rfl

/-- Witness for `checkServiceToken_never_errors` at a transient store
fault. -/
theorem checkServiceToken_never_errors_w :
    (CheckServiceToken (Except.error (GoErr.storeFault "io timeout"))).2 = none ∧
      (CheckServiceToken (Except.error (GoErr.storeFault "io timeout"))).1 = false :=
  ⟨(checkServiceToken_never_errors (Except.error (GoErr.storeFault "io timeout"))).1,
    (checkServiceToken_never_errors (Except.error (GoErr.storeFault "io timeout"))).2
      (GoErr.storeFault "io timeout") rfl⟩

/-- C6: against the in-memory store, `CheckServiceToken` returns `true` iff a
matching `ServiceToken` row exists and reports absence as `(false, nil)`,
while `CheckAccessToken` reports absence of a matching `AccessToken` row as
the `ErrTokenNotFound` error. -/
theorem checkServiceToken_checkAccessToken_asymmetry (s : StoreState) (tok : String) :
    ((CheckServiceTokenIn s tok).1 = true ↔ serviceTokenByTokenLookup s tok ≠ none) ∧
      (serviceTokenByTokenLookup s tok = none →
        CheckServiceTokenIn s tok = (false, none)) ∧
      (accessTokenLookup s tok = none →
        CheckAccessToken s tok = Except.error GoErr.tokenNotFound) := by
  refine ⟨?_, ?_, ?_⟩
  · unfold CheckServiceTokenIn CheckServiceToken getServiceTokenByToken
    cases h : serviceTokenByTokenLookup s tok <;> simp [h]
  · intro h
    unfold CheckServiceTokenIn CheckServiceToken getServiceTokenByToken
    rw [h]
  · intro h
    unfold CheckAccessToken getAccessTokenByToken
    rw [h]

/-- Witness for `checkServiceToken_checkAccessToken_asymmetry`: an absent
token yields `(false, nil)` from the service check and `ErrTokenNotFound`
from the access check; the present service token yields `true`. -/
theorem checkServiceToken_checkAccessToken_asymmetry_w :
    CheckServiceTokenIn exStore "zzz" = (false, none) ∧
      CheckAccessToken exStore "zzz" = Except.error GoErr.tokenNotFound ∧
      (CheckServiceTokenIn exStore "tokA").1 = true :=
  ⟨(checkServiceToken_checkAccessToken_asymmetry exStore "zzz").2.1 (by decide),
    (checkServiceToken_checkAccessToken_asymmetry exStore "zzz").2.2 (by decide),
    ((checkServiceToken_checkAccessToken_asymmetry exStore "tokA").1).mpr (by decide)⟩

/-- C1 (bug in the source): whenever the dispatched cache write succeeds
(`err = nil`), the background task of `GenerateAuthCode` panics on the
nil-interface `err.Error()` call instead of completing; it completes (and
logs the message) exactly when the write fails.  The issuing call itself
still returns the generated code. -/
theorem generateAuthCode_task_panics_when_set_succeeds (s : StoreState) (code : String)
    (userID : Int) :
    (GenerateAuthCode s none code userID).1 = Except.ok code ∧
      (GenerateAuthCode s none code userID).2.2 = none ∧
      ∀ msg : String, (GenerateAuthCode s (some msg) code userID).2.2 = some msg := by
  refine ⟨rfl, rfl, ?_⟩
  intro msg
  rfl

/-- C5: `GenerateServiceToken` is idempotent per service name: an existing
row is returned unchanged with no write; an absent row leads to persisting
the fresh token; and two successive calls return the identical token
string. -/
theorem generateServiceToken_idempotent (s : StoreState) (name fresh1 fresh2 : String) :
    (∀ row, serviceTokenByNameLookup s name = some row →
        GenerateServiceToken s fresh1 name = (Except.ok row.token, s)) ∧
      (serviceTokenByNameLookup s name = none →
        GenerateServiceToken s fresh1 name =
          (Except.ok fresh1,
            { s with serviceTokens := ⟨s.nextID, name, fresh1⟩ :: s.serviceTokens,
                     nextID := s.nextID + 1 })) ∧
      (∃ t : String, (GenerateServiceToken s fresh1 name).1 = Except.ok t ∧
        (GenerateServiceToken (GenerateServiceToken s fresh1 name).2 fresh2 name).1 =
          Except.ok t) := by
  refine ⟨?_, ?_, ?_⟩
  · intro row h
    unfold GenerateServiceToken getServiceTokenByServiceName
    rw [h]
  · intro h
    unfold GenerateServiceToken getServiceTokenByServiceName createServiceToken
    rw [h]
  · cases h : serviceTokenByNameLookup s name with
    | some row =>
      refine ⟨row.token, ?_, ?_⟩ <;>
        simp [GenerateServiceToken, getServiceTokenByServiceName, h]
    | none =>
      refine ⟨fresh1, ?_, ?_⟩ <;>
      · simp only [GenerateServiceToken, getServiceTokenByServiceName, createServiceToken, h]
        all_goals simp [serviceTokenByNameLookup, List.find?_cons]

/-- Witness for `generateServiceToken_idempotent`: the existing row for
"svcA" is returned unchanged, and a fresh name gets the fresh token. -/
theorem generateServiceToken_idempotent_w :
    GenerateServiceToken exStore "fresh1" "svcA" = (Except.ok "tokA", exStore) ∧
      (GenerateServiceToken exStore "fresh1" "svcB").1 = Except.ok "fresh1" :=
  ⟨(generateServiceToken_idempotent exStore "svcA" "fresh1" "fresh2").1
      ⟨2, "svcA", "tokA"⟩ (by decide),
    by
      rw [(generateServiceToken_idempotent exStore "svcB" "fresh1" "fresh2").2.1 (by decide)]⟩

/-- C8: if an account with the given username already exists, `Register`
fails with `ErrAccountAlreadyExists` and leaves the store unchanged; and
whatever the starting store, registering the same username twice fails the
second call with `ErrAccountAlreadyExists` without growing the account
table. -/
theorem register_duplicate_username (s : StoreState) (username p1 p2 : String) :
    (userLookup s username ≠ none →
        Register s username p1 = (some GoErr.accountAlreadyExists, s)) ∧
      ((Register (Register s username p1).2 username p2).1 =
          some GoErr.accountAlreadyExists ∧
        (Register (Register s username p1).2 username p2).2.users.length =
          (Register s username p1).2.users.length) := by
  cases h : userLookup s username with
  | some u =>
    refine ⟨fun _ => ?_, ?_, ?_⟩ <;>
      simp [Register, userGetByUsername, h]
  | none =>
    refine ⟨fun hc => absurd rfl hc, ?_, ?_⟩ <;>
    · simp only [Register, userGetByUsername, userCreate, h]
      all_goals simp [userLookup, List.find?_cons]

/-- Witness for `register_duplicate_username`: registering "alice" again
fails with `ErrAccountAlreadyExists` and keeps the store unchanged. -/
theorem register_duplicate_username_w :
    Register exStore "alice" "pw2" = (some GoErr.accountAlreadyExists, exStore) :=
  (register_duplicate_username exStore "alice" "pw2" "pw3").1 (by decide)

/-- Helper: under the id/nextID well-formedness invariant, deleting the row
id that is about to be handed out removes nothing from the old table. -/
theorem filter_ne_nextID (s : StoreState) (hwf : s.wfTokens = true) :
    s.accessTokens.filter (fun t => t.id != s.nextID) = s.accessTokens := by
  apply List.filter_eq_self.mpr
  intro t ht
  have hlt := List.all_eq_true.mp hwf t ht
  simp only [decide_eq_true_eq] at hlt
  simp only [bne_iff_ne, ne_eq, decide_eq_true_eq]
  omega

/-- C7: a valid login's fresh token resolves through `CheckAccessToken` to
the same account id; `Logout` with that token succeeds and deletes exactly
the one created `AccessToken` row; afterwards `CheckAccessToken` fails with
`ErrTokenNotFound`, and a second `Logout` with the same token also fails
with `ErrTokenNotFound`. -/
theorem login_roundtrip_logout (s : StoreState) (username password fresh : String)
    (user : User)
    (hu : userLookup s username = some user)
    (hpw : bcryptVerify password user.password = true)
    (hfresh : accessTokenLookup s fresh = none)
    (hwf : s.wfTokens = true) :
    (Login s fresh username password).1 = Except.ok ⟨user.id, fresh⟩ ∧
      CheckAccessToken (Login s fresh username password).2 fresh = Except.ok user.id ∧
      (Logout (Login s fresh username password).2 fresh).1 = none ∧
      (Logout (Login s fresh username password).2 fresh).2.accessTokens = s.accessTokens ∧
      CheckAccessToken (Logout (Login s fresh username password).2 fresh).2 fresh =
        Except.error GoErr.tokenNotFound ∧
      (Logout (Logout (Login s fresh username password).2 fresh).2 fresh).1 =
        some GoErr.tokenNotFound := by
  have hlogin : Login s fresh username password =
      (Except.ok ⟨user.id, fresh⟩,
        { s with accessTokens := ⟨s.nextID, user.id, fresh⟩ :: s.accessTokens,
                 nextID := s.nextID + 1 }) := by
    simp [Login, userGetByUsername, createAccessToken, hu, hpw]
  have hlogout : Logout
      { s with accessTokens := ⟨s.nextID, user.id, fresh⟩ :: s.accessTokens,
               nextID := s.nextID + 1 } fresh =
      (none, { s with accessTokens := s.accessTokens, nextID := s.nextID + 1 }) := by
    simp [Logout, getAccessTokenByToken, deleteAccessToken, accessTokenLookup,
      List.find?_cons, List.filter_cons, filter_ne_nextID s hwf]
  have hgone : accessTokenLookup
      { s with accessTokens := s.accessTokens, nextID := s.nextID + 1 } fresh = none :=
    hfresh
  simp only [hlogin]
  simp only [hlogout]
  refine ⟨trivial, ?_, trivial, trivial, ?_, ?_⟩
  · simp [CheckAccessToken, getAccessTokenByToken, accessTokenLookup, List.find?_cons]
  · simp [CheckAccessToken, getAccessTokenByToken, hgone]
  · simp [Logout, getAccessTokenByToken, hgone]

/-- Witness for `login_roundtrip_logout`: the account "alice" of `exStore`
logs in with a fresh token, checks, logs out, and fails the repeat
operations. -/
theorem login_roundtrip_logout_w :
    (Login exStore "fff" "alice" "pw").1 = Except.ok ⟨1, "fff"⟩ ∧
      CheckAccessToken (Login exStore "fff" "alice" "pw").2 "fff" = Except.ok 1 ∧
      (Logout (Login exStore "fff" "alice" "pw").2 "fff").1 = none ∧
      (Logout (Login exStore "fff" "alice" "pw").2 "fff").2.accessTokens =
        exStore.accessTokens ∧
      CheckAccessToken (Logout (Login exStore "fff" "alice" "pw").2 "fff").2 "fff" =
        Except.error GoErr.tokenNotFound ∧
      (Logout (Logout (Login exStore "fff" "alice" "pw").2 "fff").2 "fff").1 =
        some GoErr.tokenNotFound :=
  login_roundtrip_logout exStore "alice" "pw" "fff" ⟨1, "alice", bcryptHash "pw", "user"⟩
    (by decide) (by decide) (by decide) (by decide)

end PsyhoApp
